import Mathlib

/-!
# Verification of the ado-git-repo-insights analytics pipeline

Shallow embedding of the repository's forecast engine
(`ml/fallback_forecaster.py`), insights cache (`ml/insights.py`),
comment extraction (`cli.py`) and extraction-window resolution, together
with proofs of the specified properties.

Modelling conventions:
* Python floats are idealised as real numbers (`ℝ`); `numpy` NaN entries
  are modelled as `none` in `List (Option ℝ)`.
* Python `date` values are modelled by their proleptic-Gregorian ordinal
  (`date.toordinal`), an integer; `date(1,1,1)` has ordinal 1 and is a
  Monday, so `weekday o = (o - 1) % 7` with Monday = 0.
* Byte strings fed to SHA-256 are ASCII in every use below, so a string
  is encoded as the list of its character code points.
-/

namespace ADOInsights

/-! ## Python-style helpers -/

/-- Lexicographic comparison of character lists by code point, matching
Python string `<=` (which compares by code point, shorter prefix first). -/
def charListLe : List Char → List Char → Bool
  | [], _ => true
  | _ :: _, [] => false
  | a :: as, b :: bs =>
    if a.toNat < b.toNat then true
    else if b.toNat < a.toNat then false
    else charListLe as bs

/-- Python `s1 <= s2` on strings. -/
def pyStrLe (s1 s2 : String) : Bool := charListLe s1.data s2.data

/-- Python truthiness of an optional string: `None` and `""` are falsy. -/
def pyTruthy : Option String → Bool
  | none => false
  | some s => !(s == "")

/-- Round-half-to-even to an integer, the idealised semantics of Python's
`round` on reals (ties go to the even integer). -/
noncomputable def bankRound (q : ℝ) : ℤ :=
  if Int.fract q < 1/2 then ⌊q⌋
  else if 1/2 < Int.fract q then ⌊q⌋ + 1
  else if Even ⌊q⌋ then ⌊q⌋ else ⌊q⌋ + 1

/-- Python `round(x, 2)`: round to two decimal places, ties to even. -/
noncomputable def round2 (x : ℝ) : ℝ := (bankRound (100 * x) : ℝ) / 100

/-! ## Dates as proleptic-Gregorian ordinals -/

/-- Gregorian leap-year test, as in Python's `calendar.isleap`. -/
def isLeap (y : ℕ) : Bool := (y % 4 == 0 && y % 100 != 0) || y % 400 == 0

/-- Days in a month of a given year. -/
def daysInMonth (y m : ℕ) : ℕ :=
  if m == 2 then (if isLeap y then 29 else 28)
  else if m == 4 || m == 6 || m == 9 || m == 11 then 30
  else 31

/-- Days in the year before the first day of month `m`. -/
def daysBeforeMonth (y m : ℕ) : ℕ :=
  ((List.range (m - 1)).map (fun i => daysInMonth y (i + 1))).sum

/-- Days before January 1 of year `y` (proleptic Gregorian). -/
def daysBeforeYear (y : ℕ) : ℕ :=
  365 * (y - 1) + (y - 1) / 4 - (y - 1) / 100 + (y - 1) / 400

/-- `date(y, m, d).toordinal()`: days since 0000-12-31. -/
def toOrdinal (y m d : ℕ) : ℤ :=
  (daysBeforeYear y + daysBeforeMonth y m + d : ℕ)

/-- `date.weekday()` from the ordinal: Monday = 0 … Sunday = 6. -/
def weekday (o : ℤ) : ℤ := (o - 1) % 7

/-- Modelled from the spec: `ml/date_utils.align_to_monday` is not part of
the provided sources; per the spec, forecast period starts are aligned to
the Monday of the date's (ISO) week, i.e. move back by the weekday. -/
def align_to_monday (o : ℤ) : ℤ := o - weekday o

/-- The `next_monday` computation of `FallbackForecaster._forecast_metric`:
`today + (7 - today.weekday()) % 7`, and `today` itself when `today` is a
Monday (the explicit special case in the source is a no-op). -/
def nextMonday (today : ℤ) : ℤ :=
  if weekday today = 0 then today else today + (7 - weekday today) % 7

/-! ## WindowResolver (spec-modelled) -/

/-- Modelled from the spec: `PRExtractor._determine_start_date` is not under
the provided sources (only its unit tests are). Per spec §4.1 the priority
order is: explicit start; else `today - backfill_days`; else
`watermark + 1`; else January 1 of `today`'s year. Dates are ordinals and
`today` is passed as year/month/day. -/
def resolve_start (explicitStart : Option ℤ) (backfillDays : Option ℕ)
    (watermark : Option ℤ) (todayY todayM todayD : ℕ) : ℤ :=
  match explicitStart with
  | some e => e
  | none =>
    match backfillDays with
    | some b => toOrdinal todayY todayM todayD - b
    | none =>
      match watermark with
      | some w => w + 1
      | none => toOrdinal todayY 1 1

/-! ## Fallback forecaster: data model -/

/-- Data-quality assessment record (`DataQualityAssessment` dataclass);
the `message` field carries no logic and is omitted. -/
structure DataQualityAssessment where
  status : String
  weeks_available : ℕ
  deriving Repr, DecidableEq

/-- `MIN_WEEKS_REQUIRED` constant. -/
def MIN_WEEKS_REQUIRED : ℕ := 4

/-- `LOW_CONFIDENCE_THRESHOLD` constant. -/
def LOW_CONFIDENCE_THRESHOLD : ℕ := 8

/-- `HORIZON_WEEKS` constant. -/
def HORIZON_WEEKS : ℕ := 4

/-- `assess_data_quality`: classify by the number of available weeks. -/
def assess_data_quality (weeks_available : ℕ) : DataQualityAssessment :=
  if weeks_available < MIN_WEEKS_REQUIRED then
    ⟨"insufficient", weeks_available⟩
  else if weeks_available < LOW_CONFIDENCE_THRESHOLD then
    ⟨"low_confidence", weeks_available⟩
  else
    ⟨"normal", weeks_available⟩

/-- `_calculate_horizon`: 2 weeks for low-confidence data, else 4. -/
def calculate_horizon (dq : Option DataQualityAssessment) : ℕ :=
  match dq with
  | none => HORIZON_WEEKS
  | some d => if d.status = "low_confidence" then min HORIZON_WEEKS 2 else HORIZON_WEEKS

/-- The inline confidence-multiplier selection of `_forecast_metric`:
2.58 for low-confidence data, else 1.96. -/
noncomputable def confidenceMultiplier (dq : Option DataQualityAssessment) : ℝ :=
  match dq with
  | none => 1.96
  | some d => if d.status = "low_confidence" then 2.58 else 1.96

/-! ## Fallback forecaster: numeric pipeline -/

/-- The numeric entries of an array with NaN holes. -/
def obs (values : List (Option ℝ)) : List ℝ := values.filterMap id

/-- `np.nanmean`: mean of the non-NaN entries. -/
noncomputable def nanmean (values : List (Option ℝ)) : ℝ :=
  (obs values).sum / (obs values).length

/-- Population variance (`ddof = 0`) of the non-NaN entries. -/
noncomputable def nanvar (values : List (Option ℝ)) : ℝ :=
  ((obs values).map (fun v => (v - nanmean values) ^ 2)).sum / (obs values).length

/-- `np.nanstd`: population standard deviation of the non-NaN entries. -/
noncomputable def nanstd (values : List (Option ℝ)) : ℝ := Real.sqrt (nanvar values)

/-- `clip_outliers`: clip values beyond `std_threshold` standard deviations
from the mean; arrays with fewer than 2 entries, zero deviation, or no
numeric entries (NaN mean/std: `np.clip` then maps NaN to NaN, leaving the
all-NaN array unchanged) are returned as they are. -/
noncomputable def clip_outliers (values : List (Option ℝ))
    (std_threshold : ℝ := 3) : List (Option ℝ) :=
  if values.length < 2 then values
  else if obs values = [] then values
  else if nanstd values = 0 then values
  else
    let lower_bound := nanmean values - std_threshold * nanstd values
    let upper_bound := nanmean values + std_threshold * nanstd values
    values.map (Option.map (fun v => min (max v lower_bound) upper_bound))

/-- Sum of `f i ys[i]` over the positions of `ys`. -/
noncomputable def sumIdx (ys : List ℝ) (f : ℕ → ℝ → ℝ) : ℝ :=
  ((List.range ys.length).map (fun i => f i (ys.getD i 0))).sum

/-- Slope of the degree-1 least-squares fit of `np.polyfit` over
`x = 0, 1, …, n-1` (closed form of ordinary least squares). -/
noncomputable def polyfitSlope (ys : List ℝ) : ℝ :=
  let n : ℝ := ys.length
  (n * sumIdx ys (fun i y => i * y) - sumIdx ys (fun i _ => i) * sumIdx ys (fun _ y => y)) /
    (n * sumIdx ys (fun i _ => (i : ℝ) ^ 2) - sumIdx ys (fun i _ => i) ^ 2)

/-- Intercept of the degree-1 least-squares fit of `np.polyfit`. -/
noncomputable def polyfitIntercept (ys : List ℝ) : ℝ :=
  (sumIdx ys (fun _ y => y) - polyfitSlope ys * sumIdx ys (fun i _ => i)) / ys.length

/-- Residuals `y - np.polyval(coeffs, x)` of the fit. -/
noncomputable def residuals (ys : List ℝ) : List ℝ :=
  (List.range ys.length).map (fun i => ys.getD i 0 - (polyfitSlope ys * i + polyfitIntercept ys))

/-- `np.std(residuals, ddof=1)` when there are at least 2 residuals, else 0:
sample standard deviation about the residual mean. -/
noncomputable def residualSE (ys : List ℝ) : ℝ :=
  let rs := residuals ys
  if 1 < rs.length then
    Real.sqrt ((rs.map (fun r => (r - rs.sum / rs.length) ^ 2)).sum / (rs.length - 1))
  else 0

/-- One row of the weekly-metrics frame produced by `_get_weekly_metrics`:
the week's Monday (ordinal), the PR count, and the median cycle time
(NaN when no cycle times exist for the week). -/
structure WeekRow where
  week_start : ℤ
  pr_count : ℝ
  cycle_time_p50 : Option ℝ

/-- One forecast value entry of the output. -/
structure ForecastValue where
  period_start : ℤ
  predicted : ℝ
  lower_bound : ℝ
  upper_bound : ℝ

/-- One per-metric forecast entry of the output. -/
structure Forecast where
  metric : String
  unit : String
  horizon_weeks : ℕ
  values : List ForecastValue

/-- The `column_map` lookup of `_forecast_metric`: the metric's column as a
float array (the cycle-time median may hold NaNs). -/
def columnValues (df : List WeekRow) (metric : String) : Option (List (Option ℝ)) :=
  if metric = "pr_throughput" then some (df.map (fun r => some r.pr_count))
  else if metric = "cycle_time_minutes" then some (df.map (fun r => r.cycle_time_p50))
  else none

/-- `FallbackForecaster._forecast_metric`: clip outliers, drop NaNs, fit a
least-squares line, and emit `horizon` weekly values starting at the next
Monday; `self._data_quality` and `date.today()` are explicit arguments. -/
noncomputable def forecast_metric (dq : Option DataQualityAssessment) (today : ℤ)
    (df : List WeekRow) (metric unit : String) : Option Forecast :=
  match columnValues df metric with
  | none => none
  | some vals =>
    let ys := obs (clip_outliers vals)
    if ys.length < MIN_WEEKS_REQUIRED then none
    else
      let slope := polyfitSlope ys
      let intercept := polyfitIntercept ys
      let rse := residualSE ys
      let horizon := calculate_horizon dq
      let nm := nextMonday today
      some
        { metric := metric
          unit := unit
          horizon_weeks := horizon
          values := (List.range horizon).map (fun i =>
            let p := slope * (ys.length + i : ℕ) + intercept
            let margin := confidenceMultiplier dq * rse
            { period_start := align_to_monday (nm + 7 * i)
              predicted := round2 (max 0 p)
              lower_bound := round2 (max 0 (p - margin))
              upper_bound := round2 (p + margin) }) }

/-- The written `predictions/trends.json` payload (timestamp omitted). -/
structure TrendsFile where
  schema_version : ℕ
  is_stub : Bool
  generated_by : String
  forecaster : String
  data_quality : String
  forecasts : List Forecast

/-- `_write_predictions`: assemble the payload; always succeeds (`True`). -/
def write_predictions (forecasts : List Forecast) (data_quality : String) :
    TrendsFile × Bool :=
  ({ schema_version := 1
     is_stub := false
     generated_by := "linear-v1.0"
     forecaster := "linear"
     data_quality := data_quality
     forecasts := forecasts }, true)

/-- The metric table `METRICS`. -/
def METRICS : List (String × String) :=
  [("pr_throughput", "count"), ("cycle_time_minutes", "minutes")]

/-- `FallbackForecaster.generate`: the per-metric forecast call sits in a
`try`/`except` that downgrades any exception to a skipped metric, so the
outcome of each call is abstracted as `Except Unit (Option Forecast)`
supplied by `runMetric` (an exception or `_forecast_metric`'s result). -/
def generate (df : List WeekRow)
    (runMetric : String → String → Except Unit (Option Forecast)) :
    TrendsFile × Bool :=
  let weeks_available := if df.isEmpty then 0 else df.length
  let dq := assess_data_quality weeks_available
  if df.isEmpty || dq.status == "insufficient" then
    write_predictions [] dq.status
  else
    let forecasts := METRICS.filterMap (fun mu =>
      match runMetric mu.1 mu.2 with
      | .ok (some f) => some f
      | .ok none => none
      | .error _ => none)
    if forecasts.isEmpty then write_predictions [] dq.status
    else write_predictions forecasts dq.status

/-! ## SHA-256 (pure, executable; bytes are naturals below 256) -/

/-- Truncate to a 32-bit word. -/
def w32 (n : ℕ) : ℕ := n % 4294967296

/-- Rotate a 32-bit word right by `n` bits. -/
def rotr (x n : ℕ) : ℕ := w32 (x >>> n ||| x <<< (32 - n))

/-- SHA-256 round constants. -/
def shaK : List ℕ :=
  [1116352408, 1899447441, 3049323471, 3921009573, 961987163,
   1508970993, 2453635748, 2870763221, 3624381080, 310598401,
   607225278, 1426881987, 1925078388, 2162078206, 2614888103,
   3248222580, 3835390401, 4022224774, 264347078, 604807628,
   770255983, 1249150122, 1555081692, 1996064986, 2554220882,
   2821834349, 2952996808, 3210313671, 3336571891, 3584528711,
   113926993, 338241895, 666307205, 773529912, 1294757372,
   1396182291, 1695183700, 1986661051, 2177026350, 2456956037,
   2730485921, 2820302411, 3259730800, 3345764771, 3516065817,
   3600352804, 4094571909, 275423344, 430227734, 506948616,
   659060556, 883997877, 958139571, 1322822218, 1537002063,
   1747873779, 1955562222, 2024104815, 2227730452, 2361852424,
   2428436474, 2756734187, 3204031479, 3329325298]

/-- SHA-256 initial hash state. -/
def shaH0 : List ℕ :=
  [1779033703, 3144134277, 1013904242, 2773480762, 1359893119,
   2600822924, 528734635, 1541459225]

/-- Big-endian byte rendering of `n` in `k` bytes. -/
def toBytesBE (k n : ℕ) : List ℕ :=
  (List.range k).map (fun i => n >>> (8 * (k - 1 - i)) % 256)

/-- SHA-256 message padding: append `0x80`, zeros, and the 64-bit length. -/
def sha256pad (msg : List ℕ) : List ℕ :=
  let L := msg.length
  let k := (64 - (L + 9) % 64) % 64
  msg ++ [0x80] ++ List.replicate k 0 ++ toBytesBE 8 (8 * L)

/-- Combine bytes into big-endian 32-bit words. -/
def toWordsBE : List ℕ → List ℕ
  | a :: b :: c :: d :: rest =>
    (a * 16777216 + b * 65536 + c * 256 + d) :: toWordsBE rest
  | _ => []

/-- SHA-256 small sigma 0. -/
def ssig0 (x : ℕ) : ℕ := rotr x 7 ^^^ rotr x 18 ^^^ x >>> 3

/-- SHA-256 small sigma 1. -/
def ssig1 (x : ℕ) : ℕ := rotr x 17 ^^^ rotr x 19 ^^^ x >>> 10

/-- SHA-256 big sigma 0. -/
def bsig0 (x : ℕ) : ℕ := rotr x 2 ^^^ rotr x 13 ^^^ rotr x 22

/-- SHA-256 big sigma 1. -/
def bsig1 (x : ℕ) : ℕ := rotr x 6 ^^^ rotr x 11 ^^^ rotr x 25

/-- SHA-256 choose function (bitwise complement within 32 bits). -/
def shaCh (x y z : ℕ) : ℕ := x &&& y ^^^ (x ^^^ 4294967295) &&& z

/-- SHA-256 majority function. -/
def shaMaj (x y z : ℕ) : ℕ := x &&& y ^^^ x &&& z ^^^ y &&& z

/-- Extend a 16-word block to the 64-word message schedule. -/
def schedule (ws : List ℕ) : Array ℕ :=
  (List.range 48).foldl (fun w t =>
    let i := t + 16
    w.push (w32 (ssig1 (w.getD (i - 2) 0) + w.getD (i - 7) 0 +
      ssig0 (w.getD (i - 15) 0) + w.getD (i - 16) 0))) ws.toArray

/-- One SHA-256 compression step over an 8-word state list. -/
def shaRound (w : Array ℕ) (st : List ℕ) (t : ℕ) : List ℕ :=
  match st with
  | [a, b, c, d, e, f, g, h] =>
    let t1 := w32 (h + bsig1 e + shaCh e f g + shaK.getD t 0 + w.getD t 0)
    let t2 := w32 (bsig0 a + shaMaj a b c)
    [w32 (t1 + t2), a, b, c, w32 (d + t1), e, f, g]
  | other => other

/-- Compress one 16-word block into the running hash state. -/
def compressBlock (h : List ℕ) (ws : List ℕ) : List ℕ :=
  let w := schedule ws
  let fin := (List.range 64).foldl (shaRound w) h
  (h.zip fin).map (fun p => w32 (p.1 + p.2))

/-- SHA-256 digest of a byte list, as 32 bytes. -/
def sha256 (msg : List ℕ) : List ℕ :=
  let ws := toWordsBE (sha256pad msg)
  let blocks := (List.range (ws.length / 16)).map (fun i => (ws.drop (16 * i)).take 16)
  let hfin := blocks.foldl compressBlock shaH0
  (hfin.map (toBytesBE 4)).flatten

/-- Lower-case hex digit. -/
def hexDigit (n : ℕ) : Char := "0123456789abcdef".data.getD n '0'

/-- Lower-case hex rendering of a byte list. -/
def hexString (bs : List ℕ) : String :=
  ⟨(bs.map (fun b => [hexDigit (b / 16), hexDigit (b % 16)])).flatten⟩

/-- Code points of a string; equals its UTF-8 bytes for the ASCII strings
used throughout this development (`str.encode()` in the source). -/
def strBytes (s : String) : List ℕ := s.data.map Char.toNat

/-- `hashlib.sha256(s.encode()).hexdigest()` for ASCII `s`. -/
def sha256hex (s : String) : String := hexString (sha256 (strBytes s))

/-! ## Insights generator (`ml/insights.py`) -/

/-- The module constant `PROMPT_VERSION` (per spec §9 the version is passed
explicitly to the functions that read the process-global). -/
def PROMPT_VERSION : String := "phase5-v2"

/-- The aggregate statistics of `_get_pr_stats` as already-rendered JSON
scalars: counts are integers, the date-range endpoints are strings, and the
two rounded cycle-time numbers are kept as their decimal rendering. -/
structure PRStats where
  total_prs : ℕ
  date_range_start : String
  date_range_end : String
  avg_cycle_time_minutes : String
  p90_cycle_time_minutes : String
  authors_count : ℕ
  repositories_count : ℕ

/-- `json.dumps(prompt_data, sort_keys=True, ensure_ascii=True)` for the
fixed two-level shape built by `_build_prompt`: keys appear in sorted order
(`prompt_version` before `stats`; the stats keys alphabetically). The model
assumes the embedded strings need no JSON escaping, which holds for the
ASCII dates and version strings used here. -/
def canonicalPromptJson (prompt_version : String) (st : PRStats) : String :=
  "\x7b\"prompt_version\": \"" ++ prompt_version ++ "\", \"stats\": \x7b" ++
    "\"authors_count\": " ++ toString st.authors_count ++
    ", \"avg_cycle_time_minutes\": " ++ st.avg_cycle_time_minutes ++
    ", \"date_range_end\": \"" ++ st.date_range_end ++ "\"" ++
    ", \"date_range_start\": \"" ++ st.date_range_start ++ "\"" ++
    ", \"p90_cycle_time_minutes\": " ++ st.p90_cycle_time_minutes ++
    ", \"repositories_count\": " ++ toString st.repositories_count ++
    ", \"total_prs\": " ++ toString st.total_prs ++ "\x7d\x7d"

/-- The freshness-marker fallback: a missing (`NULL`) or empty aggregate
value is replaced by the fixed literal `"empty-dataset"` (Python truthiness
of `row["max_closed"]`). -/
def freshnessMarker : Option String → String
  | none => "empty-dataset"
  | some s => if s = "" then "empty-dataset" else s

/-- `_get_cache_key`: SHA-256 of the `|`-joined parts, where the prompt-data
hash is truncated to its first 16 hex characters. -/
def get_cache_key (prompt_version model : String)
    (max_closed max_updated : Option String) (st : PRStats) : String :=
  let canonical_json := canonicalPromptJson prompt_version st
  let prompt_hash := (sha256hex canonical_json).take 16
  sha256hex (String.intercalate "|"
    [prompt_version, model, freshnessMarker max_closed, freshnessMarker max_updated,
     prompt_hash])

/-- The cache key exactly as the spec sentence words it: the inner prompt
hash is the full SHA-256 hex digest, with no truncation. -/
def cacheKeySpec (prompt_version model : String)
    (max_closed max_updated : Option String) (st : PRStats) : String :=
  sha256hex (String.intercalate "|"
    [prompt_version, model, freshnessMarker max_closed, freshnessMarker max_updated,
     sha256hex (canonicalPromptJson prompt_version st)])

/-- The `category` field of a raw insight dict: missing (defaulted to
`"unknown"`), a string, or present but not a string (insight dropped). -/
inductive CatField where
  | missing
  | str (s : String)
  | nonstr
  deriving Repr, DecidableEq

/-- One element of the external generator's `insights` array. Only the
fields inspected by `_validate_and_fix_insights` are modelled; `rawId` is
the generator-assigned `id`. -/
structure RawInsight where
  isDict : Bool
  rawId : Option String
  category : CatField
  hasSeverity : Bool
  hasTitle : Bool
  hasDescription : Bool
  deriving Repr, DecidableEq

/-- The category used for ID generation, or `none` when the insight is
dropped for a non-string category. -/
def categoryOf : CatField → Option String
  | .missing => some "unknown"
  | .str s => some s
  | .nonstr => none

/-- The pre-hash ID input
`f"{category}|{max_closed}|{max_updated}|{PROMPT_VERSION}|{idx}"`. -/
def idInput (category max_closed max_updated prompt_version : String) (idx : ℕ) :
    String :=
  category ++ "|" ++ max_closed ++ "|" ++ max_updated ++ "|" ++ prompt_version ++
    "|" ++ toString idx

/-- A validated insight; `id` is the deterministic public ID. -/
structure FixedInsight where
  id : String
  category : String
  deriving Repr, DecidableEq

/-- Per-insight step of `_validate_and_fix_insights`: skip non-dicts and
non-string categories, assign the deterministic ID, then require the
`severity`/`title`/`description` fields. -/
def fixInsight (prompt_version max_closed max_updated : String) (idx : ℕ)
    (r : RawInsight) : Option FixedInsight :=
  if !r.isDict then none
  else
    match categoryOf r.category with
    | none => none
    | some cat =>
      let deterministic_id :=
        (sha256hex (idInput cat max_closed max_updated prompt_version idx)).take 12
      if r.hasSeverity && r.hasTitle && r.hasDescription then
        some ⟨cat ++ "-" ++ deterministic_id, cat⟩
      else none

/-- `_validate_and_fix_insights` over the `insights` array (`none` stands
for a missing `insights` key or a non-array value, both rejected); indices
are positions in the raw array, as produced by `enumerate`. -/
def validate_and_fix_insights (prompt_version max_closed max_updated : String)
    (raws : Option (List RawInsight)) : Option (List FixedInsight) :=
  match raws with
  | none => none
  | some l => some (l.enum.filterMap (fun p => fixInsight prompt_version max_closed max_updated p.1 p.2))

/-- Erase the generator-assigned `id` field of a raw insight. -/
def eraseRawId (r : RawInsight) : RawInsight := { r with rawId := none }

/-! ## Insights cache and run effects -/

/-- The on-disk cache file: absent, unreadable/invalid, or an entry with a
stored key, a capture time (epoch seconds), and the stored `insights_data`
payload (`none` for a JSON `null` or a missing key). -/
inductive CacheFile where
  | absent
  | unreadable
  | entry (cache_key : String) (cached_at : ℚ) (insights_data : Option (List FixedInsight))

/-- `_check_cache`: the entry is valid only when its stored key equals the
computed key and its age in hours is within the TTL; every other case is a
miss (`None`). -/
def check_cache (file : CacheFile) (cache_key : String) (now : ℚ) (ttl : ℕ) :
    Option (List FixedInsight) :=
  match file with
  | .absent => none
  | .unreadable => none
  | .entry k cached_at payload =>
    if k ≠ cache_key then none
    else if (now - cached_at) / 3600 > (ttl : ℚ) then none
    else payload

/-- Observable effects of one `LLMInsightsGenerator.generate` run. -/
structure InsightsRunResult where
  prompt_written : Bool
  api_called : Bool
  summary_written : Option (List FixedInsight)
  cache_written : Option (String × List FixedInsight)
  returned : Bool
  deriving Repr, DecidableEq

/-- `LLMInsightsGenerator.generate`: dry runs write only the prompt
artifact; otherwise a valid cache entry short-circuits the API call, and an
API failure or empty result (`api_result = none`) writes nothing. -/
def insights_generate (dry_run : Bool) (file : CacheFile) (cache_key : String)
    (now : ℚ) (ttl : ℕ) (api_result : Option (List FixedInsight)) :
    InsightsRunResult :=
  if dry_run then
    { prompt_written := true, api_called := false, summary_written := none
      cache_written := none, returned := false }
  else
    match check_cache file cache_key now ttl with
    | some cached =>
      { prompt_written := false, api_called := false, summary_written := some cached
        cache_written := none, returned := true }
    | none =>
      match api_result with
      | none =>
        { prompt_written := false, api_called := true, summary_written := none
          cache_written := none, returned := false }
      | some data =>
        { prompt_written := false, api_called := true, summary_written := some data
          cache_written := some (cache_key, data), returned := true }

/-! ## Thread/comment incremental sync (`cli._extract_comments`) -/

/-- A comment of a fetched thread (fields used by the upserts). -/
structure RawComment where
  cid : String
  authorId : String
  deriving Repr, DecidableEq

/-- A fetched thread: `lastUpdatedDate` defaults to `""` when absent, as in
the source's `thread.get("lastUpdatedDate", "")`. -/
structure RawThread where
  tid : String
  lastUpdatedDate : String
  comments : List RawComment
  deriving Repr, DecidableEq

/-- One persistence call issued while processing a PR's threads. -/
inductive UpsertEvent where
  | thread (tid : String) (last_updated : String)
  | user (uid : String)
  | comment (cid tid : String)
  deriving Repr, DecidableEq

/-- The upserts a single non-skipped thread produces: the thread row, then
for each comment its author user followed by the comment row. -/
def threadEvents (t : RawThread) : List UpsertEvent :=
  .thread t.tid t.lastUpdatedDate ::
    (t.comments.map (fun c => [UpsertEvent.user c.authorId, UpsertEvent.comment c.cid t.tid])).flatten

/-- The `max_threads_per_pr` cap applied to the fetched threads
(0 means unlimited). -/
def cappedThreads (max_threads_per_pr : ℕ) (threads : List RawThread) :
    List RawThread :=
  if max_threads_per_pr > 0 && threads.length > max_threads_per_pr then
    threads.take max_threads_per_pr
  else threads

/-- The per-PR body of `cli._extract_comments`: cap the fetched threads at
`max_threads_per_pr`, then skip any thread whose `lastUpdatedDate` is `<=`
the stored maximum when that maximum is truthy
(`if last_updated and thread_updated <= last_updated: continue`). -/
def extract_comments_pr (stored : Option String) (max_threads_per_pr : ℕ)
    (threads : List RawThread) : List UpsertEvent :=
  ((cappedThreads max_threads_per_pr threads).map (fun t =>
    if pyTruthy stored && pyStrLe t.lastUpdatedDate (stored.getD "") then []
    else threadEvents t)).flatten

/-! ## Helper lemmas -/

/-- Both candidates of a banker's rounding lie at the floor or one above. -/
lemma bankRound_mem (q : ℝ) : bankRound q = ⌊q⌋ ∨ bankRound q = ⌊q⌋ + 1 := by
  unfold bankRound
  split_ifs <;> simp

/-- Banker's rounding is monotone. -/
lemma bankRound_mono {a b : ℝ} (h : a ≤ b) : bankRound a ≤ bankRound b := by
  rcases lt_or_le ⌊a⌋ ⌊b⌋ with hf | hf
  · rcases bankRound_mem a with ha | ha <;> rcases bankRound_mem b with hb | hb <;> omega
  · have hfe : ⌊a⌋ = ⌊b⌋ := le_antisymm (Int.floor_le_floor h) hf
    have hfr : Int.fract a ≤ Int.fract b := by
      unfold Int.fract
      rw [hfe]
      linarith
    unfold bankRound
    rw [hfe]
    split_ifs <;> first | omega | linarith

/-- Banker's rounding of a nonnegative number is nonnegative. -/
lemma bankRound_nonneg {q : ℝ} (h : 0 ≤ q) : 0 ≤ bankRound q := by
  have := Int.floor_nonneg.mpr h
  rcases bankRound_mem q with h' | h' <;> omega

/-- Two-decimal rounding is monotone. -/
lemma round2_mono {a b : ℝ} (h : a ≤ b) : round2 a ≤ round2 b := by
  unfold round2
  have : bankRound (100 * a) ≤ bankRound (100 * b) := bankRound_mono (by linarith)
  have : ((bankRound (100 * a) : ℤ) : ℝ) ≤ ((bankRound (100 * b) : ℤ) : ℝ) :=
    Int.cast_le.mpr this
  linarith

/-- Two-decimal rounding preserves nonnegativity. -/
lemma round2_nonneg {a : ℝ} (h : 0 ≤ a) : 0 ≤ round2 a := by
  unfold round2
  have h1 : (0 : ℤ) ≤ bankRound (100 * a) := bankRound_nonneg (by linarith)
  have h2 : (0 : ℝ) ≤ ((bankRound (100 * a) : ℤ) : ℝ) := by exact_mod_cast h1
  linarith

/-- Two-decimal rounding fixes integers. -/
lemma round2_intCast (z : ℤ) : round2 ((z : ℤ) : ℝ) = z := by
  unfold round2 bankRound
  have h : (100 : ℝ) * (z : ℝ) = ((100 * z : ℤ) : ℝ) := by push_cast; ring
  rw [h, Int.fract_intCast, Int.floor_intCast]
  norm_num

/-- Monday alignment indeed lands on a Monday. -/
lemma weekday_align_to_monday (o : ℤ) : weekday (align_to_monday o) = 0 := by
  unfold align_to_monday weekday
  omega

/-- Flattening a map that replaces filtered-out elements by `[]` is the
flattening of the map over the filtered list. -/
lemma flatten_map_ite {α β : Type} (p : α → Bool) (f : α → List β) :
    ∀ l : List α,
      (l.map (fun a => if p a then [] else f a)).flatten =
        ((l.filter (fun a => !p a)).map f).flatten := by
  intro l
  induction l with
  | nil => rfl
  | cons a l ih =>
    by_cases h : p a = true <;> simp [h, ih]

/-! ## C2: extraction start-date priority order -/

/-- C2: `resolve_start` follows the fixed priority order — an explicit
start wins; else backfill gives `today - backfill_days`; else a watermark
gives `watermark + 1 day`; else January 1 of `today`'s year — and with
today = 2026-01-15, watermark = 2026-01-10 and `backfill_days = 7` the
result is 2026-01-08 (backfill wins over incremental). -/
theorem resolve_start_priority :
    (∀ e bf wm y m d, resolve_start (some e) bf wm y m d = e)
    ∧ (∀ b wm y m d, resolve_start none (some b) wm y m d = toOrdinal y m d - b)
    ∧ (∀ w y m d, resolve_start none none (some w) y m d = w + 1)
    ∧ (∀ y m d, resolve_start none none none y m d = toOrdinal y 1 1)
    ∧ resolve_start none (some 7) (some (toOrdinal 2026 1 10)) 2026 1 15 =
        toOrdinal 2026 1 8 := by
  refine ⟨fun _ _ _ _ _ _ => rfl, fun _ _ _ _ _ => rfl, fun _ _ _ _ => rfl,
    fun _ _ _ => rfl, by decide⟩

/-! ## C4: forecast data-quality gate -/

/-- C4: the gate depends only on the distinct-week count — fewer than 4
weeks is `insufficient` and `generate` writes an empty forecast list; 4–7
weeks is `low_confidence` with horizon 2 and multiplier 2.58; 8 or more is
`normal` with horizon 4 and multiplier 1.96. -/
theorem data_quality_gate :
    (∀ w, w < 4 → (assess_data_quality w).status = "insufficient")
    ∧ (∀ df rm, df.length < 4 → (generate df rm).1.forecasts = [])
    ∧ (∀ w, 4 ≤ w → w < 8 →
        (assess_data_quality w).status = "low_confidence"
        ∧ calculate_horizon (some (assess_data_quality w)) = 2
        ∧ confidenceMultiplier (some (assess_data_quality w)) = 2.58)
    ∧ (∀ w, 8 ≤ w →
        (assess_data_quality w).status = "normal"
        ∧ calculate_horizon (some (assess_data_quality w)) = 4
        ∧ confidenceMultiplier (some (assess_data_quality w)) = 1.96) := by
  refine ⟨?_, ?_, ?_, ?_⟩
  · intro w hw
    simp [assess_data_quality, MIN_WEEKS_REQUIRED, hw]
  · intro df rm hlen
    by_cases he : df.isEmpty <;>
      simp [generate, he, assess_data_quality, MIN_WEEKS_REQUIRED, hlen,
        write_predictions]
  · intro w h4 h8
    have hn : ¬ w < MIN_WEEKS_REQUIRED := by simp [MIN_WEEKS_REQUIRED]; omega
    have hl : w < LOW_CONFIDENCE_THRESHOLD := by simp [LOW_CONFIDENCE_THRESHOLD]; omega
    refine ⟨?_, ?_, ?_⟩ <;>
      simp [assess_data_quality, calculate_horizon, confidenceMultiplier, hn, hl,
        HORIZON_WEEKS]
  · intro w h8
    have hn : ¬ w < MIN_WEEKS_REQUIRED := by simp [MIN_WEEKS_REQUIRED]; omega
    have hl : ¬ w < LOW_CONFIDENCE_THRESHOLD := by
      simp [LOW_CONFIDENCE_THRESHOLD]; omega
    refine ⟨?_, ?_, ?_⟩ <;>
      simp [assess_data_quality, calculate_horizon, confidenceMultiplier, hn, hl,
        HORIZON_WEEKS]

/-- Witness for the data-quality gate at 3, 3-row data, 5 and 9 weeks. -/
theorem data_quality_gate_witness :
    (assess_data_quality 3).status = "insufficient"
    ∧ (generate [⟨0, 1, none⟩, ⟨7, 1, none⟩, ⟨14, 1, none⟩]
        (fun _ _ => Except.error ())).1.forecasts = []
    ∧ (assess_data_quality 5).status = "low_confidence"
    ∧ calculate_horizon (some (assess_data_quality 5)) = 2
    ∧ confidenceMultiplier (some (assess_data_quality 5)) = 2.58
    ∧ (assess_data_quality 9).status = "normal"
    ∧ calculate_horizon (some (assess_data_quality 9)) = 4
    ∧ confidenceMultiplier (some (assess_data_quality 9)) = 1.96 := by
  obtain ⟨h1, h2, h3, h4⟩ := data_quality_gate
  obtain ⟨a1, a2, a3⟩ := h3 5 (by norm_num) (by norm_num)
  obtain ⟨b1, b2, b3⟩ := h4 9 (by norm_num)
  exact ⟨h1 3 (by norm_num), h2 _ _ (by simp), a1, a2, a3, b1, b2, b3⟩

/-! ## C8: dry-run frame -/

/-- C8: a dry run writes the prompt artifact, does not invoke the external
generator, and writes neither the cache file nor the insights artifact. -/
theorem dry_run_frame :
    ∀ file cache_key now ttl api_result,
      insights_generate true file cache_key now ttl api_result =
        { prompt_written := true, api_called := false, summary_written := none
          cache_written := none, returned := false } :=
  fun _ _ _ _ _ => rfl

/-! ## C9: thread incremental-sync skip rule -/

/-- C9 counterexample: with a stored maximum of `""` (a previously stored
thread whose `lastUpdatedDate` was missing), a fetched thread whose
`lastUpdatedDate` `""` is not strictly greater is nevertheless processed —
the Python truthiness test treats the empty-string maximum as absent. -/
theorem extract_comments_empty_marker_processed :
    pyStrLe "" "" = true
    ∧ extract_comments_pr (some "") 50 [⟨"t1", "", []⟩] ≠ [] := by
  constructor
  · rfl
  · decide

/-- C9 (amended): when the stored maximum is absent or the empty string no
fetched thread is skipped; when it is a non-empty string, exactly the
threads with `lastUpdatedDate` strictly greater are processed, each
contributing its thread upsert and its comments' author/comment upserts,
and skipped threads contribute no upsert at all. -/
theorem extract_comments_incremental :
    (∀ maxT threads, extract_comments_pr none maxT threads =
      ((cappedThreads maxT threads).map threadEvents).flatten)
    ∧ (∀ maxT threads, extract_comments_pr (some "") maxT threads =
      ((cappedThreads maxT threads).map threadEvents).flatten)
    ∧ (∀ s maxT threads, s ≠ "" →
        extract_comments_pr (some s) maxT threads =
          (((cappedThreads maxT threads).filter
              (fun t => !pyStrLe t.lastUpdatedDate s)).map threadEvents).flatten) := by
  refine ⟨?_, ?_, ?_⟩
  · intro maxT threads
    simp [extract_comments_pr, pyTruthy]
  · intro maxT threads
    simp [extract_comments_pr, pyTruthy]
  · intro s maxT threads hs
    have ht : pyTruthy (some s) = true := by
      simp [pyTruthy]
      exact hs
    unfold extract_comments_pr
    rw [show (some s).getD "" = s from rfl]
    simp only [ht, Bool.true_and]
    exact flatten_map_ite (fun t => pyStrLe t.lastUpdatedDate s) threadEvents _

/-- Witness for the incremental-sync rule at a concrete stored maximum and
thread list: the older thread is skipped, the newer processed. -/
theorem extract_comments_incremental_witness :
    extract_comments_pr (some "2024-05-01") 50
      [⟨"t1", "2024-04-30", [⟨"c1", "u1"⟩]⟩, ⟨"t2", "2024-05-02", [⟨"c2", "u2"⟩]⟩] =
      (((cappedThreads 50
        [⟨"t1", "2024-04-30", [⟨"c1", "u1"⟩]⟩,
         ⟨"t2", "2024-05-02", [⟨"c2", "u2"⟩]⟩]).filter
          (fun t => !pyStrLe t.lastUpdatedDate "2024-05-01")).map threadEvents).flatten :=
  extract_comments_incremental.2.2 "2024-05-01" 50 _ (by decide)

/-! ## C10: the forecaster always writes its artifact -/

/-- C10: `FallbackForecaster.generate` returns `True` and writes
`trends.json` for every database state; per-metric failures are absorbed,
and when no metric yields a forecast the file carries an empty forecast
list and the week-count data-quality status. -/
theorem generate_always_writes :
    ∀ df rm,
      (generate df rm).2 = true
      ∧ (generate df rm).1.data_quality =
          (assess_data_quality (if df.isEmpty then 0 else df.length)).status
      ∧ ((∀ mu ∈ METRICS, ∀ f, rm mu.1 mu.2 ≠ Except.ok (some f)) →
          (generate df rm).1.forecasts = []) := by
  intro df rm
  have hgen : ∃ fs, generate df rm =
      write_predictions fs
        ((assess_data_quality (if df.isEmpty then 0 else df.length)).status) := by
    unfold generate
    dsimp only
    split_ifs <;> exact ⟨_, rfl⟩
  obtain ⟨fs, hfs⟩ := hgen
  refine ⟨?_, ?_, ?_⟩
  · rw [hfs]
    rfl
  · rw [hfs]
    rfl
  · intro hall
    have hfm : METRICS.filterMap (fun mu =>
        match rm mu.1 mu.2 with
        | .ok (some f) => some f
        | .ok none => none
        | .error _ => none) = [] := by
      rw [List.filterMap_eq_nil_iff]
      intro mu hmu
      cases hr : rm mu.1 mu.2 with
      | error e => simp
      | ok o =>
        cases o with
        | none => simp
        | some f => exact absurd hr (hall mu hmu f)
    unfold generate
    dsimp only
    simp only [hfm]
    split_ifs <;> rfl

/-- Witness for the always-writes property on an 8-row frame whose metric
runs all raise. -/
theorem generate_always_writes_witness :
    (generate [⟨0, 1, none⟩, ⟨7, 1, none⟩, ⟨14, 1, none⟩, ⟨21, 1, none⟩,
        ⟨28, 1, none⟩, ⟨35, 1, none⟩, ⟨42, 1, none⟩, ⟨49, 1, none⟩]
      (fun _ _ => Except.error ())).2 = true
    ∧ (generate [⟨0, 1, none⟩, ⟨7, 1, none⟩, ⟨14, 1, none⟩, ⟨21, 1, none⟩,
        ⟨28, 1, none⟩, ⟨35, 1, none⟩, ⟨42, 1, none⟩, ⟨49, 1, none⟩]
      (fun _ _ => Except.error ())).1.forecasts = [] := by
  obtain ⟨h1, _, h3⟩ := generate_always_writes
    [⟨0, 1, none⟩, ⟨7, 1, none⟩, ⟨14, 1, none⟩, ⟨21, 1, none⟩,
      ⟨28, 1, none⟩, ⟨35, 1, none⟩, ⟨42, 1, none⟩, ⟨49, 1, none⟩]
    (fun _ _ => Except.error ())
  exact ⟨h1, h3 (by intro mu _ f h; exact Except.noConfusion h)⟩

/-! ## C7: cache validity -/

/-- Characterisation of a cache hit in `_check_cache`. -/
lemma check_cache_hit (file : CacheFile) (key : String) (now : ℚ) (ttl : ℕ)
    (payload : List FixedInsight) :
    check_cache file key now ttl = some payload ↔
      ∃ cachedAt, file = CacheFile.entry key cachedAt (some payload) ∧
        (now - cachedAt) / 3600 ≤ (ttl : ℚ) := by
  cases file with
  | absent => simp [check_cache]
  | unreadable => simp [check_cache]
  | entry k a p =>
    by_cases h1 : k = key
    · by_cases h2 : (now - a) / 3600 ≤ (ttl : ℚ)
      · have hc : check_cache (CacheFile.entry k a p) key now ttl = p := by
          unfold check_cache
          dsimp only
          rw [if_neg (by simp [h1]), if_neg (not_lt.mpr h2)]
        rw [hc]
        constructor
        · intro hp
          refine ⟨a, ?_, h2⟩
          rw [h1, hp]
        · rintro ⟨a', ha, _⟩
          injection ha
      · have hc : check_cache (CacheFile.entry k a p) key now ttl = none := by
          unfold check_cache
          dsimp only
          rw [if_neg (by simp [h1]), if_pos (not_le.mp h2)]
        rw [hc]
        constructor
        · intro h
          exact Option.noConfusion h
        · rintro ⟨a', ha, hle⟩
          injection ha with _ ha' _
          subst ha'
          exact absurd hle h2
    · have hc : check_cache (CacheFile.entry k a p) key now ttl = none := by
        unfold check_cache
        dsimp only
        rw [if_pos h1]
      rw [hc]
      constructor
      · intro h
        exact Option.noConfusion h
      · rintro ⟨a', ha, _⟩
        injection ha with hk _ _
        exact absurd hk h1

/-- C7 counterexample: a readable cache entry whose stored key matches and
whose age is within the TTL, but whose `insights_data` payload is null, is
treated as a miss and the external generator is invoked — refuting the
claimed "if and only if" at this input. -/
theorem cache_fresh_null_payload_invokes_api :
    ¬ (((insights_generate false (CacheFile.entry "k" 0 none) "k" 0 24 none).api_called
          = false) ↔
        ("k" = "k" ∧ ((0 : ℚ) - 0) / 3600 ≤ ((24 : ℕ) : ℚ))) := by
  intro h
  have hmiss : check_cache (CacheFile.entry "k" 0 none) "k" 0 24 = none := by
    unfold check_cache
    dsimp only
    rw [if_neg (by simp : ¬ ("k" : String) ≠ "k"),
      if_neg (by norm_num : ¬ ((0 : ℚ) - 0) / 3600 > ((24 : ℕ) : ℚ))]
  have happly : (insights_generate false (CacheFile.entry "k" 0 none) "k" 0 24
      none).api_called = false := h.mpr ⟨rfl, by norm_num⟩
  unfold insights_generate at happly
  rw [hmiss] at happly
  simp at happly

/-- C7 (amended): in a non-dry run a stored entry is used, and the external
generator not invoked, if and only if the stored key equals the computed
key, the age is within the TTL, and the stored `insights_data` payload is
non-null; in every other case (missing file, unreadable entry, key
mismatch, expired entry, null payload) the generator is invoked. A used
entry's payload is written as the summary and the cache file is not
rewritten. -/
theorem cache_hit_iff :
    ∀ (file : CacheFile) (cache_key : String) (now : ℚ) (ttl : ℕ) api_result,
      ((insights_generate false file cache_key now ttl api_result).api_called = false ↔
        ∃ cachedAt payload, file = CacheFile.entry cache_key cachedAt (some payload) ∧
          (now - cachedAt) / 3600 ≤ (ttl : ℚ))
      ∧ (∀ cachedAt payload,
          file = CacheFile.entry cache_key cachedAt (some payload) →
          (now - cachedAt) / 3600 ≤ (ttl : ℚ) →
          (insights_generate false file cache_key now ttl api_result).summary_written
              = some payload
            ∧ (insights_generate false file cache_key now ttl api_result).cache_written
              = none) := by
  intro file key now ttl api
  have hmain : ∀ payload, check_cache file key now ttl = some payload →
      insights_generate false file key now ttl api =
        { prompt_written := false, api_called := false, summary_written := some payload
          cache_written := none, returned := true } := by
    intro payload hp
    unfold insights_generate
    rw [hp]
    rfl
  constructor
  · constructor
    · intro hapi
      unfold insights_generate at hapi
      cases hc : check_cache file key now ttl with
      | some cached =>
        obtain ⟨a, ha, hle⟩ := (check_cache_hit file key now ttl cached).mp hc
        exact ⟨a, cached, ha, hle⟩
      | none =>
        rw [hc] at hapi
        cases api <;> simp at hapi
    · rintro ⟨a, payload, ha, hle⟩
      have hc : check_cache file key now ttl = some payload :=
        (check_cache_hit file key now ttl payload).mpr ⟨a, ha, hle⟩
      rw [hmain payload hc]
  · intro a payload ha hle
    have hc : check_cache file key now ttl = some payload :=
      (check_cache_hit file key now ttl payload).mpr ⟨a, ha, hle⟩
    rw [hmain payload hc]
    exact ⟨rfl, rfl⟩

/-- Witness for the cache-validity rule at a fresh, key-matching entry with
a non-null payload: the payload is served and the generator stays idle. -/
theorem cache_hit_iff_witness :
    ((insights_generate false (CacheFile.entry "k" 5 (some [])) "k" 5 24 none).api_called
        = false)
    ∧ (insights_generate false (CacheFile.entry "k" 5 (some [])) "k" 5 24 none).summary_written
        = some []
    ∧ (insights_generate false (CacheFile.entry "k" 5 (some [])) "k" 5 24 none).cache_written
        = none := by
  obtain ⟨hiff, huse⟩ :=
    cache_hit_iff (CacheFile.entry "k" 5 (some [])) "k" 5 24 none
  obtain ⟨hs, hcw⟩ := huse 5 [] rfl (by norm_num)
  exact ⟨hiff.mpr ⟨5, [], rfl, by norm_num⟩, hs, hcw⟩

/-! ## C6: outlier clipping -/

/-- The standard deviation is nonnegative. -/
lemma nanstd_nonneg (values : List (Option ℝ)) : 0 ≤ nanstd values :=
  Real.sqrt_nonneg _

/-- A series with no numeric entry has standard deviation zero. -/
lemma nanstd_of_obs_nil (values : List (Option ℝ)) (h : obs values = []) :
    nanstd values = 0 := by
  unfold nanstd nanvar
  rw [h]
  simp

/-- C6: with at least 2 points and non-zero population standard deviation,
`clip_outliers` clips every value into `[mean - 3·std, mean + 3·std]`
(mean and std over the original series); with fewer than 2 points or zero
deviation the series is unchanged; and on twenty 10.0s plus one 100.0 the
100.0 is reduced below 100.0 and every 10.0 is unchanged. -/
theorem clip_outliers_spec :
    (∀ values : List (Option ℝ), values.length < 2 ∨ nanstd values = 0 →
      clip_outliers values = values)
    ∧ (∀ values : List (Option ℝ), 2 ≤ values.length → nanstd values ≠ 0 →
        clip_outliers values = values.map (Option.map (fun v =>
          min (max v (nanmean values - 3 * nanstd values))
            (nanmean values + 3 * nanstd values)))
        ∧ ∀ ov ∈ clip_outliers values, ∀ v, ov = some v →
            nanmean values - 3 * nanstd values ≤ v
            ∧ v ≤ nanmean values + 3 * nanstd values)
    ∧ clip_outliers (List.replicate 20 (some (10 : ℝ)) ++ [some 100]) =
        List.replicate 20 (some (10 : ℝ)) ++
          [some (nanmean (List.replicate 20 (some (10 : ℝ)) ++ [some 100]) +
            3 * nanstd (List.replicate 20 (some (10 : ℝ)) ++ [some 100]))]
    ∧ nanmean (List.replicate 20 (some (10 : ℝ)) ++ [some 100]) +
        3 * nanstd (List.replicate 20 (some (10 : ℝ)) ++ [some 100]) < 100 := by
  have hpart1 : ∀ values : List (Option ℝ), values.length < 2 ∨ nanstd values = 0 →
      clip_outliers values = values := by
    intro values h
    unfold clip_outliers
    by_cases hl : values.length < 2
    · rw [if_pos hl]
    · rw [if_neg hl]
      rcases h with h | h
      · exact absurd h hl
      · by_cases ho : obs values = []
        · rw [if_pos ho]
        · rw [if_neg ho, if_pos h]
  have hpart2 : ∀ values : List (Option ℝ), 2 ≤ values.length → nanstd values ≠ 0 →
      clip_outliers values = values.map (Option.map (fun v =>
        min (max v (nanmean values - 3 * nanstd values))
          (nanmean values + 3 * nanstd values)))
      ∧ ∀ ov ∈ clip_outliers values, ∀ v, ov = some v →
          nanmean values - 3 * nanstd values ≤ v
          ∧ v ≤ nanmean values + 3 * nanstd values := by
    intro values h2 hstd
    have ho : obs values ≠ [] := fun h => hstd (nanstd_of_obs_nil values h)
    have heq : clip_outliers values = values.map (Option.map (fun v =>
        min (max v (nanmean values - 3 * nanstd values))
          (nanmean values + 3 * nanstd values))) := by
      unfold clip_outliers
      rw [if_neg (by omega : ¬ values.length < 2), if_neg ho, if_neg hstd]
    refine ⟨heq, ?_⟩
    intro ov hov v hv
    rw [heq] at hov
    obtain ⟨ov0, _, hmap⟩ := List.mem_map.mp hov
    rw [hv] at hmap
    obtain ⟨v0, _, hg⟩ := Option.map_eq_some'.mp hmap
    have hσ := nanstd_nonneg values
    constructor
    · rw [← hg]
      exact le_min (le_trans (le_max_right _ _) (le_refl _)) (by linarith)
    · rw [← hg]
      exact min_le_right _ _
  refine ⟨hpart1, hpart2, ?_⟩
  have hrep : ∀ n : ℕ, obs (List.replicate n (some (10 : ℝ))) =
      List.replicate n (10 : ℝ) := by
    intro n
    induction n with
    | zero => rfl
    | succ k ih =>
      rw [List.replicate_succ, List.replicate_succ]
      unfold obs at ih ⊢
      rw [List.filterMap_cons]
      simp only [id_eq]
      rw [ih]
  have hobs : obs (List.replicate 20 (some (10 : ℝ)) ++ [some 100]) =
      List.replicate 20 (10 : ℝ) ++ [100] := by
    unfold obs
    rw [List.filterMap_append]
    have h20 := hrep 20
    unfold obs at h20
    rw [h20]
    rfl
  have hlen : (List.replicate 20 (some (10 : ℝ)) ++ [some 100]).length = 21 := by
    simp
  have hmean : nanmean (List.replicate 20 (some (10 : ℝ)) ++ [some 100]) = 100 / 7 := by
    unfold nanmean
    rw [hobs]
    simp only [List.sum_append, List.sum_replicate, List.sum_cons, List.sum_nil,
      List.length_append, List.length_replicate, List.length_cons, List.length_nil,
      nsmul_eq_mul]
    norm_num
  have hvar : nanvar (List.replicate 20 (some (10 : ℝ)) ++ [some 100]) = 18000 / 49 := by
    unfold nanvar
    simp only [hobs, hmean, List.map_append, List.map_replicate, List.map_cons,
      List.map_nil, List.sum_append, List.sum_replicate, List.sum_cons, List.sum_nil,
      List.length_append, List.length_replicate, List.length_cons, List.length_nil,
      nsmul_eq_mul]
    norm_num
  have hstd : nanstd (List.replicate 20 (some (10 : ℝ)) ++ [some 100]) =
      Real.sqrt (18000 / 49) := by
    unfold nanstd
    rw [hvar]
  have hs0 : 0 ≤ Real.sqrt (18000 / 49) := Real.sqrt_nonneg _
  have hs2 : Real.sqrt (18000 / 49) ^ 2 = 18000 / 49 := Real.sq_sqrt (by norm_num)
  have hslb : (10 : ℝ) / 7 ≤ Real.sqrt (18000 / 49) := by nlinarith
  have hsub : Real.sqrt (18000 / 49) < 200 / 7 := by nlinarith
  have hstdne : nanstd (List.replicate 20 (some (10 : ℝ)) ++ [some 100]) ≠ 0 := by
    rw [hstd]
    positivity
  obtain ⟨heq, _⟩ := hpart2 _ (by rw [hlen]; norm_num) hstdne
  constructor
  · rw [heq]
    simp only [List.map_append, List.map_replicate, List.map_cons, List.map_nil,
      Option.map_some', hmean, hstd]
    rw [max_eq_left (by linarith :
          (100 : ℝ) / 7 - 3 * Real.sqrt (18000 / 49) ≤ 10),
      min_eq_left (by linarith :
          (10 : ℝ) ≤ 100 / 7 + 3 * Real.sqrt (18000 / 49)),
      max_eq_left (by linarith :
          (100 : ℝ) / 7 - 3 * Real.sqrt (18000 / 49) ≤ 100),
      min_eq_right (by linarith :
          (100 : ℝ) / 7 + 3 * Real.sqrt (18000 / 49) ≤ 100)]
  · rw [hmean, hstd]
    linarith

/-- Witness for the clipping rule: the degenerate single-point series is
unchanged, and a two-point series is clipped by the mean-std formula. -/
theorem clip_outliers_spec_witness :
    clip_outliers [some (42 : ℝ)] = [some (42 : ℝ)]
    ∧ clip_outliers [some (0 : ℝ), some 1] =
        [some (0 : ℝ), some 1].map (Option.map (fun v =>
          min (max v (nanmean [some (0 : ℝ), some 1] -
              3 * nanstd [some (0 : ℝ), some 1]))
            (nanmean [some (0 : ℝ), some 1] + 3 * nanstd [some (0 : ℝ), some 1]))) := by
  have hobs2 : obs [some (0 : ℝ), some 1] = [0, 1] := by
    simp [obs, List.filterMap_cons]
  have hmean2 : nanmean [some (0 : ℝ), some 1] = 1 / 2 := by
    unfold nanmean
    rw [hobs2]
    norm_num
  have hvar : nanvar [some (0 : ℝ), some 1] = 1 / 4 := by
    unfold nanvar
    simp only [hobs2, hmean2, List.map_cons, List.map_nil, List.sum_cons,
      List.sum_nil, List.length_cons, List.length_nil]
    norm_num
  have hstdne : nanstd [some (0 : ℝ), some 1] ≠ 0 := by
    unfold nanstd
    rw [hvar]
    positivity
  exact ⟨clip_outliers_spec.1 [some 42] (Or.inl (by norm_num)),
    (clip_outliers_spec.2.1 [some 0, some 1] (by norm_num) hstdne).1⟩

/-! ## C1: forecast value invariant -/

/-- Mean of the decreasing four-week series. -/
lemma nanmean_dec4 :
    nanmean [some (4 : ℝ), some 3, some 2, some 1] = 5 / 2 := by
  unfold nanmean obs
  norm_num [List.filterMap_cons]

/-- Variance of the decreasing four-week series. -/
lemma nanvar_dec4 :
    nanvar [some (4 : ℝ), some 3, some 2, some 1] = 5 / 4 := by
  unfold nanvar
  have hobs : obs [some (4 : ℝ), some 3, some 2, some 1] = [4, 3, 2, 1] := by
    simp [obs, List.filterMap_cons]
  simp only [hobs, nanmean_dec4, List.map_cons, List.map_nil, List.sum_cons,
    List.sum_nil, List.length_cons, List.length_nil]
  norm_num

/-- The decreasing four-week series is left unchanged by clipping. -/
lemma clip_dec4 :
    clip_outliers [some (4 : ℝ), some 3, some 2, some 1] =
      [some (4 : ℝ), some 3, some 2, some 1] := by
  have hstd : nanstd [some (4 : ℝ), some 3, some 2, some 1] = Real.sqrt (5 / 4) := by
    unfold nanstd
    rw [nanvar_dec4]
  have hs0 : 0 ≤ Real.sqrt (5 / 4) := Real.sqrt_nonneg _
  have hs2 : Real.sqrt (5 / 4) ^ 2 = 5 / 4 := Real.sq_sqrt (by norm_num)
  have hslb : (1 : ℝ) / 2 ≤ Real.sqrt (5 / 4) := by nlinarith
  unfold clip_outliers
  rw [if_neg (by norm_num : ¬ ([some (4 : ℝ), some 3, some 2, some 1].length < 2)),
    if_neg (by simp [obs, List.filterMap_cons] :
      ¬ obs [some (4 : ℝ), some 3, some 2, some 1] = []),
    if_neg (by rw [hstd]; positivity)]
  simp only [List.map_cons, List.map_nil, Option.map_some', nanmean_dec4, hstd]
  rw [max_eq_left (by linarith : (5 : ℝ) / 2 - 3 * Real.sqrt (5 / 4) ≤ 4),
    min_eq_left (by linarith : (4 : ℝ) ≤ 5 / 2 + 3 * Real.sqrt (5 / 4)),
    max_eq_left (by linarith : (5 : ℝ) / 2 - 3 * Real.sqrt (5 / 4) ≤ 3),
    min_eq_left (by linarith : (3 : ℝ) ≤ 5 / 2 + 3 * Real.sqrt (5 / 4)),
    max_eq_left (by linarith : (5 : ℝ) / 2 - 3 * Real.sqrt (5 / 4) ≤ 2),
    min_eq_left (by linarith : (2 : ℝ) ≤ 5 / 2 + 3 * Real.sqrt (5 / 4)),
    max_eq_left (by linarith : (5 : ℝ) / 2 - 3 * Real.sqrt (5 / 4) ≤ 1),
    min_eq_left (by linarith : (1 : ℝ) ≤ 5 / 2 + 3 * Real.sqrt (5 / 4))]

/-- Least-squares slope of the decreasing series is exactly -1. -/
lemma slope_dec4 : polyfitSlope [(4 : ℝ), 3, 2, 1] = -1 := by
  unfold polyfitSlope sumIdx
  norm_num [List.range_succ, List.getD]

/-- Least-squares intercept of the decreasing series is exactly 4. -/
lemma intercept_dec4 : polyfitIntercept [(4 : ℝ), 3, 2, 1] = 4 := by
  unfold polyfitIntercept sumIdx
  rw [slope_dec4]
  norm_num [List.range_succ, List.getD]

/-- The fit is perfect, so the residual standard error is zero. -/
lemma rse_dec4 : residualSE [(4 : ℝ), 3, 2, 1] = 0 := by
  have hres : residuals [(4 : ℝ), 3, 2, 1] = [0, 0, 0, 0] := by
    unfold residuals
    rw [slope_dec4, intercept_dec4]
    norm_num [List.range_succ, List.getD]
  unfold residualSE
  rw [hres]
  norm_num [List.sum_cons, Real.sqrt_zero]

/-- Two-decimal rounding of 0 and -1. -/
lemma round2_zero : round2 (0 : ℝ) = 0 := by
  have := round2_intCast 0
  simpa using this

/-- Two-decimal rounding fixes -1. -/
lemma round2_neg_one : round2 (-1 : ℝ) = -1 := by
  have := round2_intCast (-1)
  simpa using this

/-- C1 at the failing input: the four-week throughput series 4, 3, 2, 1 has
a perfect decreasing fit, and the second forecast value is written with
`predicted = 0` (clamped) but `upper_bound = -1` (unclamped), violating
`predicted ≤ upper_bound`. -/
theorem forecast_upper_bound_violation :
    ((forecast_metric (some (assess_data_quality 4)) (toOrdinal 2026 1 15)
        [⟨toOrdinal 2025 12 1, 4, none⟩, ⟨toOrdinal 2025 12 8, 3, none⟩,
         ⟨toOrdinal 2025 12 15, 2, none⟩, ⟨toOrdinal 2025 12 22, 1, none⟩]
        "pr_throughput" "count").map (fun f =>
          (f.metric, f.horizon_weeks,
            f.values.map (fun v => (v.predicted, v.lower_bound, v.upper_bound))))) =
      some ("pr_throughput", 2, [((0 : ℝ), (0 : ℝ), (0 : ℝ)), (0, 0, -1)])
    ∧ ¬ ((0 : ℝ) ≤ -1) := by
  constructor
  · have hcol : columnValues
        [⟨toOrdinal 2025 12 1, 4, none⟩, ⟨toOrdinal 2025 12 8, 3, none⟩,
         ⟨toOrdinal 2025 12 15, 2, none⟩, ⟨toOrdinal 2025 12 22, (1 : ℝ), none⟩]
        "pr_throughput" = some [some 4, some 3, some 2, some 1] := rfl
    have hys : obs (clip_outliers [some (4 : ℝ), some 3, some 2, some 1]) =
        [(4 : ℝ), 3, 2, 1] := by
      rw [clip_dec4]
      rfl
    unfold forecast_metric
    rw [hcol]
    dsimp only
    rw [hys]
    rw [if_neg (by norm_num [MIN_WEEKS_REQUIRED] :
      ¬ ([(4 : ℝ), 3, 2, 1].length < MIN_WEEKS_REQUIRED))]
    have hhor : calculate_horizon (some (assess_data_quality 4)) = 2 := rfl
    have hmul : confidenceMultiplier (some (assess_data_quality 4)) = 2.58 := rfl
    simp only [Option.map_some', hhor, hmul, slope_dec4, intercept_dec4, rse_dec4,
      List.range_succ, List.range_zero, List.nil_append, List.cons_append,
      List.map_cons, List.map_nil]
    norm_num [round2_zero, round2_neg_one, max_self,
      show ((0 : ℝ) ⊔ (-1 : ℝ)) = 0 from max_eq_left (by norm_num)]
  · norm_num

/-! ## C3: deterministic insight IDs -/

/-- The ID-fixing step never reads the generator-assigned `id`. -/
lemma fixInsight_eraseRawId (pv mc mu : String) (idx : ℕ) (r : RawInsight) :
    fixInsight pv mc mu idx (eraseRawId r) = fixInsight pv mc mu idx r := rfl

/-- Validation output is invariant under erasing generator-assigned IDs. -/
lemma validate_eraseRawId (pv mc mu : String) (raws : List RawInsight) :
    validate_and_fix_insights pv mc mu (some (raws.map eraseRawId)) =
      validate_and_fix_insights pv mc mu (some raws) := by
  unfold validate_and_fix_insights
  dsimp only
  rw [List.enum_map, List.filterMap_map]
  refine congrArg some (List.filterMap_congr ?_)
  intro p _
  show fixInsight pv mc mu p.1 (eraseRawId p.2) = fixInsight pv mc mu p.1 p.2
  exact fixInsight_eraseRawId pv mc mu p.1 p.2

set_option maxRecDepth 200000 in
set_option maxHeartbeats 8000000 in
/-- Concrete validated output for a trend insight at version phase5-v2. -/
lemma validate_trend_v2 :
    validate_and_fix_insights "phase5-v2" "empty-dataset" "empty-dataset"
      (some [⟨true, some "llm-id-1", CatField.str "trend", true, true, true⟩]) =
      some [⟨"trend-63c8906cc263", "trend"⟩] := by
  decide

set_option maxRecDepth 200000 in
set_option maxHeartbeats 8000000 in
/-- Concrete validated output for an anomaly insight at version phase5-v2. -/
lemma validate_anomaly_v2 :
    validate_and_fix_insights "phase5-v2" "empty-dataset" "empty-dataset"
      (some [⟨true, some "llm-id-2", CatField.str "anomaly", true, true, true⟩]) =
      some [⟨"anomaly-2d53cbee804d", "anomaly"⟩] := by
  decide

set_option maxRecDepth 200000 in
set_option maxHeartbeats 8000000 in
/-- Concrete validated output for an id-less trend insight at phase5-v2. -/
lemma validate_trend_none_v2 :
    validate_and_fix_insights "phase5-v2" "empty-dataset" "empty-dataset"
      (some [⟨true, none, CatField.str "trend", true, true, true⟩]) =
      some [⟨"trend-63c8906cc263", "trend"⟩] := by
  decide

set_option maxRecDepth 200000 in
set_option maxHeartbeats 8000000 in
/-- Concrete validated output for an id-less trend insight at phase5-v1. -/
lemma validate_trend_none_v1 :
    validate_and_fix_insights "phase5-v1" "empty-dataset" "empty-dataset"
      (some [⟨true, none, CatField.str "trend", true, true, true⟩]) =
      some [⟨"trend-8d5de2f0ecd9", "trend"⟩] := by
  decide

set_option maxRecDepth 200000 in
set_option maxHeartbeats 8000000 in
/-- Concrete cache key for the empty dataset at version phase5-v2. -/
lemma cache_key_v2 :
    get_cache_key "phase5-v2" "gpt-5-nano" none none
        ⟨0, "N/A", "N/A", "0", "0", 0, 1⟩ =
      "389232edb3f75d34c4a636ebb8d902cbe334d585e1d095413c876a2a9d09ed72" := by
  decide

set_option maxRecDepth 200000 in
set_option maxHeartbeats 8000000 in
/-- Concrete cache key for the empty dataset at version phase5-v1. -/
lemma cache_key_v1 :
    get_cache_key "phase5-v1" "gpt-5-nano" none none
        ⟨0, "N/A", "N/A", "0", "0", 0, 1⟩ =
      "170658efd9c8e0169a52db5138e0b63f191828eb2a8c98719d817fb7022293ee" := by
  decide

set_option maxRecDepth 200000 in
set_option maxHeartbeats 8000000 in
/-- Concrete spec-worded key (untruncated inner digest) at phase5-v2. -/
lemma cache_key_spec_v2 :
    cacheKeySpec "phase5-v2" "gpt-5-nano" none none
        ⟨0, "N/A", "N/A", "0", "0", 0, 1⟩ =
      "3915f97ff6d2836877b854cda2a96935e53af451b3f841bca033fe9084a752cc" := by
  decide

/-- C3 counterexample: two runs over identical freshness markers and the
same prompt version whose (non-deterministic) generator responses differ in
category produce different public IDs — identical markers and prompt inputs
alone do not pin the IDs. -/
theorem insight_ids_not_run_determined :
    ((validate_and_fix_insights PROMPT_VERSION "empty-dataset" "empty-dataset"
        (some [⟨true, some "llm-id-1", CatField.str "trend", true, true, true⟩])).map
          (List.map FixedInsight.id)) ≠
      ((validate_and_fix_insights PROMPT_VERSION "empty-dataset" "empty-dataset"
        (some [⟨true, some "llm-id-2", CatField.str "anomaly", true, true, true⟩])).map
          (List.map FixedInsight.id)) := by
  rw [show PROMPT_VERSION = "phase5-v2" from rfl, validate_trend_v2, validate_anomaly_v2]
  decide

/-- C3 (amended): a returned insight's ID is
`category-sha256(category|max_closed|max_updated|prompt_version|index)[:12]`
and is never taken from the generator's own `id`: erasing or changing the
generator-assigned IDs leaves the output intact, so two runs with identical
freshness markers whose responses agree up to generator-assigned IDs yield
byte-identical public IDs; the prompt version feeds the ID input string
injectively, and at the repository's versions a bump changes both the IDs
and the cache key. -/
theorem insight_id_determinism :
    (∀ pv mc mu raws,
        validate_and_fix_insights pv mc mu (some raws) =
          validate_and_fix_insights pv mc mu (some (raws.map eraseRawId)))
    ∧ (∀ pv mc mu raws raws',
        raws.map eraseRawId = raws'.map eraseRawId →
        validate_and_fix_insights pv mc mu (some raws) =
          validate_and_fix_insights pv mc mu (some raws'))
    ∧ (∀ cat mc mu pv pv' idx, pv ≠ pv' →
        idInput cat mc mu pv idx ≠ idInput cat mc mu pv' idx)
    ∧ ((validate_and_fix_insights "phase5-v2" "empty-dataset" "empty-dataset"
          (some [⟨true, none, CatField.str "trend", true, true, true⟩])).map
            (List.map FixedInsight.id) ≠
        (validate_and_fix_insights "phase5-v1" "empty-dataset" "empty-dataset"
          (some [⟨true, none, CatField.str "trend", true, true, true⟩])).map
            (List.map FixedInsight.id))
    ∧ get_cache_key "phase5-v2" "gpt-5-nano" none none ⟨0, "N/A", "N/A", "0", "0", 0, 1⟩ ≠
        get_cache_key "phase5-v1" "gpt-5-nano" none none ⟨0, "N/A", "N/A", "0", "0", 0, 1⟩ := by
  refine ⟨?_, ?_, ?_, ?_, ?_⟩
  · intro pv mc mu raws
    exact (validate_eraseRawId pv mc mu raws).symm
  · intro pv mc mu raws raws' h
    rw [← validate_eraseRawId pv mc mu raws, h, validate_eraseRawId]
  · intro cat mc mu pv pv' idx hne heq
    apply hne
    apply String.ext
    have hd := congrArg String.data heq
    unfold idInput at hd
    simp only [String.data_append, List.append_assoc] at hd
    have h1 := List.append_cancel_left hd
    have h2 := List.append_cancel_left h1
    have h3 := List.append_cancel_left h2
    have h4 := List.append_cancel_left h3
    have h5 := List.append_cancel_left h4
    have h6 := List.append_cancel_left h5
    exact List.append_cancel_right h6
  · rw [validate_trend_none_v2, validate_trend_none_v1]
    decide
  · rw [cache_key_v2, cache_key_v1]
    decide

/-- Witness for ID determinism: two concrete responses differing only in
their generator-assigned IDs validate to identical outputs. -/
theorem insight_id_determinism_witness :
    validate_and_fix_insights "phase5-v2" "2026-01-10" "2026-01-12"
      (some [⟨true, some "llm-id-1", CatField.str "bottleneck", true, true, true⟩]) =
    validate_and_fix_insights "phase5-v2" "2026-01-10" "2026-01-12"
      (some [⟨true, some "other-id", CatField.str "bottleneck", true, true, true⟩]) :=
  insight_id_determinism.2.1 "phase5-v2" "2026-01-10" "2026-01-12"
    [⟨true, some "llm-id-1", CatField.str "bottleneck", true, true, true⟩]
    [⟨true, some "other-id", CatField.str "bottleneck", true, true, true⟩]
    (by decide)

/-! ## C5: cache key structure -/

/-- Joining five strings with the pipe separator. -/
lemma intercalate_five (a b c d e : String) :
    String.intercalate "|" [a, b, c, d, e] =
      a ++ "|" ++ b ++ "|" ++ c ++ "|" ++ d ++ "|" ++ e := by
  apply String.ext
  simp [String.intercalate, String.intercalate.go, String.data_append,
    List.append_assoc]

/-- C5 counterexample: at a concrete empty-dataset input the key computed
by `_get_cache_key` differs from the key the spec sentence describes,
because the code truncates the inner prompt hash to 16 hex characters
while the spec sentence embeds the full SHA-256 hex digest. -/
theorem cache_key_not_spec_formula :
    get_cache_key PROMPT_VERSION "gpt-5-nano" none none
        ⟨0, "N/A", "N/A", "0", "0", 0, 1⟩ ≠
      cacheKeySpec PROMPT_VERSION "gpt-5-nano" none none
        ⟨0, "N/A", "N/A", "0", "0", 0, 1⟩ := by
  rw [show PROMPT_VERSION = "phase5-v2" from rfl, cache_key_v2, cache_key_spec_v2]
  decide

/-- C5 (amended): the cache key is the SHA-256 hex digest of
`prompt_version | model | max_closed | max_updated | sha256(canonical_json)[:16]`
— the inner prompt-data digest truncated to its first 16 hex characters —
where the canonical JSON has sorted keys and both freshness markers fall
back to the fixed literal `"empty-dataset"` on an empty dataset, so
repeated empty-dataset runs (whether the aggregates are NULL or empty
strings) produce the identical key. -/
theorem cache_key_structure :
    (∀ pv model mc mu st, get_cache_key pv model mc mu st =
        sha256hex (pv ++ "|" ++ model ++ "|" ++ freshnessMarker mc ++ "|" ++
          freshnessMarker mu ++ "|" ++ (sha256hex (canonicalPromptJson pv st)).take 16))
    ∧ freshnessMarker none = "empty-dataset"
    ∧ freshnessMarker (some "") = "empty-dataset"
    ∧ (∀ pv model st, get_cache_key pv model none none st =
        get_cache_key pv model (some "") (some "") st) := by
  refine ⟨?_, rfl, rfl, ?_⟩
  · intro pv model mc mu st
    unfold get_cache_key
    dsimp only
    rw [intercalate_five]
  · intro pv model st
    rfl

end ADOInsights


